import Mathlib

/-!
Verification of the SOCKS5 protocol engine of `toggleproxy`.

The engine lives in `src/socks5_async/lib.rs` and `src/socks5_async/socks.rs`.
We embed the pure protocol logic shallowly: a TCP stream becomes a
`List Nat` of pending bytes, `read_exact` becomes an all-or-nothing read,
and the non-exact `read` calls of the source become `readUpTo`, which is
parameterised by how many bytes the transport delivers right now (a
fragmented stream can deliver fewer bytes than the buffer holds).
Each stateful routine becomes a function from the incoming byte stream to
the bytes it writes plus an outcome, with panics and I/O failures made
explicit as outcome constructors.
-/

namespace ToggleProxy

/-- A byte, kept as `Nat`; encoders that truncate use `% 256` explicitly. -/
abbrev Byte := Nat

/-- `read_exact` on an `n`-byte buffer: succeeds only when the stream holds
at least `n` bytes, otherwise the whole read fails. -/
def readExact (n : Nat) (s : List Byte) : Option (List Byte × List Byte) :=
  if n ≤ s.length then some (s.take n, s.drop n) else none

/-- The non-exact `read` on an `n`-byte zero-initialised buffer when the
transport currently has `avail` bytes ready: up to `min n avail` stream
bytes fill the front of the buffer, the rest of the buffer stays zero. -/
def readUpTo (n avail : Nat) (s : List Byte) : List Byte × List Byte :=
  let k := min n (min avail s.length)
  (s.take k ++ List.replicate (n - k) 0, s.drop k)

/-- `AuthMethod` from `socks.rs`: `NoAuth = 0x00`, `UserPass = 0x02`,
`NoMethods = 0xFF`. -/
inductive AuthMethod
  | NoAuth
  | UserPass
  | NoMethods
deriving DecidableEq, Repr

/-- `AuthMethod::from`: any byte other than 0 or 2 collapses to `NoMethods`. -/
def AuthMethod.fromByte (b : Byte) : AuthMethod :=
  if b = 0 then .NoAuth else if b = 2 then .UserPass else .NoMethods

/-- The wire value of each `AuthMethod` variant. -/
def AuthMethod.code : AuthMethod → Byte
  | .NoAuth => 0
  | .UserPass => 2
  | .NoMethods => 255

/-- `Command` from `socks.rs`. -/
inductive Command
  | Connect
  | Bind
  | UdpAssosiate
deriving DecidableEq, Repr

/-- `Command::from`: only bytes 1, 2, 3 name a command. -/
def Command.fromByte (b : Byte) : Option Command :=
  if b = 1 then some .Connect
  else if b = 2 then some .Bind
  else if b = 3 then some .UdpAssosiate
  else none

/-- `AddrType` from `socks.rs`: `V4 = 0x01`, `Domain = 0x03`, `V6 = 0x04`. -/
inductive AddrType
  | V4
  | Domain
  | V6
deriving DecidableEq, Repr

/-- The wire value of each `AddrType` variant. -/
def AddrType.code : AddrType → Byte
  | .V4 => 1
  | .Domain => 3
  | .V6 => 4

/-- `AddrType::from`: only bytes 1, 3, 4 name an address type. -/
def AddrType.fromByte (b : Byte) : Option AddrType :=
  if b = 1 then some .V4
  else if b = 3 then some .Domain
  else if b = 4 then some .V6
  else none

/-- `Response` from `socks.rs` (server reply codes). -/
inductive Response
  | Success
  | Failure
  | RuleFailure
  | NetworkUnreachable
  | HostUnreachable
  | ConnectionRefused
  | TtlExpired
  | CommandNotSupported
  | AddrTypeNotSupported
deriving DecidableEq, Repr

/-- The wire value of each `Response` variant. -/
def Response.code : Response → Byte
  | .Success => 0
  | .Failure => 1
  | .RuleFailure => 2
  | .NetworkUnreachable => 3
  | .HostUnreachable => 4
  | .ConnectionRefused => 5
  | .TtlExpired => 6
  | .CommandNotSupported => 7
  | .AddrTypeNotSupported => 8

/-- `u16::to_be_bytes` of a port. -/
def portBytes (p : Nat) : List Byte := [p / 256 % 256, p % 256]

/-- `TargetAddr` from `lib.rs`: IPv4/IPv6 carry their raw octets
(`SocketAddr*::ip().octets()`), a domain carries its name bytes; each with
its port. -/
inductive TargetAddr
  | V4 (ip : List Byte) (port : Nat)
  | V6 (ip : List Byte) (port : Nat)
  | Domain (name : List Byte) (port : Nat)
deriving DecidableEq, Repr

/-- `TargetAddr::len`: payload length excluding the port. -/
def TargetAddr.len : TargetAddr → Nat
  | .V4 _ _ => 4
  | .V6 _ _ => 16
  | .Domain name _ => name.length + 1

/-- `TargetAddr::addr_type`. The source maps the `V6` variant to
`AddrType::V4`, so an IPv6 target is tagged with the IPv4 type byte. -/
def TargetAddr.addr_type : TargetAddr → AddrType
  | .V4 _ _ => .V4
  | .V6 _ _ => .V4
  | .Domain _ _ => .Domain

/-- `copy_from_slice`: copies only when the lengths agree, otherwise the
source panics; `none` models the panic. -/
def copy_from_slice (dst src : List Byte) : Option (List Byte) :=
  if dst.length = src.length then some src else none

/-- `TargetAddr::write_to` into a caller-sized buffer: address octets (or a
length byte truncated by `as u8`, then the name bytes) followed by the
big-endian port. `none` models a panic of `copy_from_slice` or of the
`buf[0]` index. -/
def TargetAddr.write_to : TargetAddr → List Byte → Option (List Byte)
  | .V4 ip p, buf => copy_from_slice buf (ip ++ portBytes p)
  | .V6 ip p, buf => copy_from_slice buf (ip ++ portBytes p)
  | .Domain name p, buf =>
    match buf with
    | [] => none
    | _ :: tail =>
      (copy_from_slice tail (name ++ portBytes p)).map
        fun bytes => (name.length % 256) :: bytes

/-- The address bytes of the client `cmd_connect` request: the type byte
chosen by `addr_type` followed by the `write_to` payload, written into the
`target_addr.len() + 2` bytes the caller reserved after the 4-byte header. -/
def encodeTarget (a : TargetAddr) : Option (List Byte) :=
  (a.write_to (List.replicate (a.len + 2) 0)).map
    fun payload => a.addr_type.code :: payload

/-- A concrete socket address as `get_socket_addrs` builds it: IPv4 from the
four raw octets, IPv6 from the eight 16-bit groups it recombines. -/
inductive SockAddr
  | v4 (ip : List Byte) (port : Nat)
  | v6 (groups : List Nat) (port : Nat)
deriving DecidableEq, Repr

/-- What `get_socket_addrs` returns: concrete addresses, or — for a domain —
the `"name:port"` query it hands to system DNS resolution (the resolution
itself is I/O outside the codec). -/
inductive ResolvedDest
  | addrs (l : List SockAddr)
  | domainQuery (name : List Byte) (port : Nat)
deriving DecidableEq, Repr

/-- Decoder failures: an unrecognised address-type byte
(`Response::AddrTypeNotSupported`), or a failed `read_exact`. -/
inductive DecErr
  | addrType
  | ioShort
deriving DecidableEq, Repr

/-- The eight 16-bit groups the source rebuilds from 16 address octets. -/
def v6Groups (a : List Byte) : List Nat :=
  (List.range 8).map fun x => ((a.getD (x * 2) 0) <<< 8) ||| (a.getD (x * 2 + 1) 0)

/-- `AddrType::get_socket_addrs`: the pure decoding part. The type byte is
read by a non-exact `read` into a zero buffer, so an empty stream leaves the
byte 0 and fails as an unsupported address type rather than as an I/O error;
the address payload and the 2-byte port are `read_exact`. Returns the
decoded destination and the unconsumed stream. -/
def get_socket_addrs (s : List Byte) : Except DecErr (ResolvedDest × List Byte) :=
  let tb := s.headD 0
  let s1 := s.tail
  match AddrType.fromByte tb with
  | none => .error .addrType
  | some t =>
    let addrRead : Option (List Byte × List Byte) :=
      match t with
      | .Domain => (readExact 1 s1).bind fun x => readExact (x.1.getD 0 0) x.2
      | .V4 => readExact 4 s1
      | .V6 => readExact 16 s1
    match addrRead with
    | none => .error .ioShort
    | some (addr, s2) =>
      match readExact 2 s2 with
      | none => .error .ioShort
      | some (pb, s3) =>
        let port := ((pb.getD 0 0) <<< 8) ||| (pb.getD 1 0)
        match t with
        | .V4 => .ok (.addrs [.v4 addr port], s3)
        | .V6 => .ok (.addrs [.v6 (v6Groups addr) port], s3)
        | .Domain => .ok (.domainQuery addr port, s3)

/-- A continuation byte `0x80..0xBF`. -/
def utf8Cont (c : Byte) : Bool := 128 ≤ c && c < 192

/-- Well-formed UTF-8, as `String::from_utf8` validates it: ASCII, or a
2–4 byte sequence with range-restricted continuation bytes (no overlong
forms, no surrogates, nothing above U+10FFFF). -/
def utf8Valid : List Byte → Bool
  | [] => true
  | b :: rest =>
    if b < 128 then utf8Valid rest
    else if b < 194 then false
    else if b < 224 then
      match rest with
      | c :: r => utf8Cont c && utf8Valid r
      | [] => false
    else if b < 240 then
      match rest with
      | c1 :: c2 :: r =>
        (if b = 224 then 160 ≤ c1 && c1 < 192
         else if b = 237 then 128 ≤ c1 && c1 < 160
         else utf8Cont c1) && utf8Cont c2 && utf8Valid r
      | _ => false
    else if b < 245 then
      match rest with
      | c1 :: c2 :: c3 :: r =>
        (if b = 240 then 144 ≤ c1 && c1 < 192
         else if b = 244 then 128 ≤ c1 && c1 < 144
         else utf8Cont c1) && utf8Cont c2 && utf8Cont c3 && utf8Valid r
      | _ => false
    else false

/-- How `SocksServerConnection::auth` ends: `ok` means the method returned
`Ok(())` — which it also does after a failed validation, because `shutdown`
only logs — `ioError` a failed `read_exact` or channel error, `panicked` the
`String::from_utf8(..).unwrap()` on non-UTF-8 credential bytes. -/
inductive AuthOutcome
  | ok
  | ioError
  | panicked
deriving DecidableEq, Repr

/-- `SocksServerConnection::auth`: on `UserPass` offered it replies
`[0x05, 0x02]`, reads a 2-byte header whose second byte is the username
length, the username, a 1-byte password length, the password, unwraps both
as UTF-8, and asks the validator: success appends `[0x01, 0x00]`, failure
appends `[0x05, 0x01]` and still returns `Ok`. Otherwise `[0x05, 0x00]`
when no-auth is allowed and offered, else `[0x05, 0x01]`
(`Response::Failure`, not `0xFF`) and again `Ok`. Returns the bytes
written, the outcome, and the unconsumed stream. -/
def authRun (no_auth : Bool) (methods : List AuthMethod)
    (validator : List Byte → List Byte → Bool) (s : List Byte) :
    List Byte × AuthOutcome × List Byte :=
  if methods.contains AuthMethod.UserPass then
    match readExact 2 s with
    | none => ([5, 2], .ioError, s)
    | some (hdr, s1) =>
      match readExact (hdr.getD 1 0) s1 with
      | none => ([5, 2], .ioError, s1)
      | some (uname, s2) =>
        if utf8Valid uname = false then ([5, 2], .panicked, s2)
        else
          match readExact 1 s2 with
          | none => ([5, 2], .ioError, s2)
          | some (pl, s3) =>
            match readExact (pl.getD 0 0) s3 with
            | none => ([5, 2], .ioError, s3)
            | some (pass, s4) =>
              if utf8Valid pass = false then ([5, 2], .panicked, s4)
              else if validator uname pass then ([5, 2, 1, 0], .ok, s4)
              else ([5, 2, 5, 1], .ok, s4)
  else if no_auth && methods.contains AuthMethod.NoAuth then ([5, 0], .ok, s)
  else ([5, 1], .ok, s)

/-- `AuthMethod::get_available_methods`: one exact 1-byte read per offered
method, each byte mapped through `AuthMethod::from`. -/
def get_available_methods (count : Nat) (s : List Byte) :
    Option (List AuthMethod × List Byte) :=
  (readExact count s).map fun x => (x.1.map AuthMethod.fromByte, x.2)

/-- How a server session ends in this model: dispatched to `cmd_connect`
with the decoded destination, failed with a `Response` error, failed on
I/O, or panicked. -/
inductive SessionResult
  | connectCmd (dest : ResolvedDest)
  | errResponse (r : Response)
  | ioError
  | panicked
deriving DecidableEq, Repr

/-- `SocksServerConnection::handle_req`: the 3-byte request header is read
by a non-exact `read` delivering `avail` bytes now (missing bytes stay 0),
the target address is decoded next, and only then is the command byte
`data[1]` matched — `Connect` dispatches, everything else logs and returns
`Err(Response::CommandNotSupported)` without writing any reply bytes. -/
def handleReq (avail : Nat) (s : List Byte) : List Byte × SessionResult :=
  let r := readUpTo 3 avail s
  match get_socket_addrs r.2 with
  | .error .addrType => ([], .errResponse .AddrTypeNotSupported)
  | .error .ioShort => ([], .ioError)
  | .ok (dest, _) =>
    match Command.fromByte (r.1.getD 1 0) with
    | some .Connect => ([], .connectCmd dest)
    | _ => ([], .errResponse .CommandNotSupported)

/-- `SocksServerConnection::serve`: exact 2-byte greeting header, version
check (`Err(Response::Failure)` on a non-5 version byte), offered-method
list, `auth`, then `handle_req`. Because `auth` returns `Ok` even after a
failed validation or an unacceptable method set, the session always
proceeds to `handle_req` in those cases. -/
def serveRun (no_auth : Bool) (validator : List Byte → List Byte → Bool)
    (avail : Nat) (s : List Byte) : List Byte × SessionResult :=
  match readExact 2 s with
  | none => ([], .ioError)
  | some (header, s1) =>
    if header.getD 0 0 ≠ 5 then ([], .errResponse .Failure)
    else
      match get_available_methods (header.getD 1 0) s1 with
      | none => ([], .ioError)
      | some (methods, s2) =>
        match authRun no_auth methods validator s2 with
        | (sent, .ok, s3) =>
          let r := handleReq avail s3
          (sent ++ r.1, r.2)
        | (sent, .ioError, _) => (sent, .ioError)
        | (sent, .panicked, _) => (sent, .panicked)

/-- Client-side handshake failures in `socks_handshake`. -/
inductive HsErr
  | ioShort
  | invalidVersion
  | wrongCreds
  | credsRequired
  | invalidMethod
deriving DecidableEq, Repr

/-- `socks_handshake` (client role): sends the greeting (`[5,2,2,0]` with
credentials configured, `[5,1,0]` without), reads the 2-byte selection,
rejects a wrong version byte, runs the username/password subnegotiation
when `UserPass` was selected (rejecting a non-zero status byte), and
rejects any other selected method except `NoAuth`. Returns the bytes sent
and the unconsumed server stream. -/
def socks_handshake (user_pass : Option (List Byte × List Byte))
    (resp : List Byte) : Except HsErr (List Byte × List Byte) :=
  let greeting : List Byte := if user_pass.isSome then [5, 2, 2, 0] else [5, 1, 0]
  match readExact 2 resp with
  | none => .error .ioShort
  | some (r, resp1) =>
    if r.getD 0 0 ≠ 5 then .error .invalidVersion
    else if r.getD 1 0 = 2 then
      match user_pass with
      | some (u, p) =>
        let subneg : List Byte :=
          5 :: (u.length % 256) :: (u ++ (p.length % 256) :: p)
        match readExact 2 resp1 with
        | none => .error .ioShort
        | some (st, resp2) =>
          if st.getD 1 0 ≠ 0 then .error .wrongCreds
          else .ok (greeting ++ subneg, resp2)
      | none => .error .credsRequired
    else if r.getD 1 0 ≠ 0 then .error .invalidMethod
    else .ok (greeting, resp1)

/-- Client-side `cmd_connect` failures: a decode error on the bound
address, or a panic while building the request buffer. -/
inductive CmdErr
  | addrType
  | ioShort
  | panicked
deriving DecidableEq, Repr

/-- `cmd_connect` (client role): sends `[5, 1, 0]` followed by the encoded
target, reads the 3-byte reply header with a non-exact `read` delivering
`avail` bytes, and decodes the bound address only to discard it — no byte
of the reply header, the reply code included, is ever checked. -/
def cmd_connect_client (avail : Nat) (target : TargetAddr)
    (resp : List Byte) : Except CmdErr (List Byte × List Byte) :=
  match encodeTarget target with
  | none => .error .panicked
  | some enc =>
    let sent : List Byte := 5 :: 1 :: 0 :: enc
    let r := readUpTo 3 avail resp
    match get_socket_addrs r.2 with
    | .error .addrType => .error .addrType
    | .error .ioShort => .error .ioShort
    | .ok (_, resp2) => .ok (sent, resp2)

/-- `connect_with_stream` (client role): handshake, then `CONNECT`; the
stream is handed to the relay only when both return `Ok`. -/
def connect_with_stream (user_pass : Option (List Byte × List Byte))
    (target : TargetAddr) (avail : Nat) (resp : List Byte) :
    Except (HsErr ⊕ CmdErr) (List Byte × List Byte) :=
  match socks_handshake user_pass resp with
  | .error e => .error (.inl e)
  | .ok (sent1, resp1) =>
    match cmd_connect_client avail target resp1 with
    | .error e => .error (.inr e)
    | .ok (sent2, resp2) => .ok (sent1 ++ sent2, resp2)

/-- The loopback IPv6 address `::1` as 16 octets, port 80: a concrete
well-formed IPv6 target. -/
def v6Example : TargetAddr := TargetAddr.V6 (List.replicate 15 0 ++ [1]) 80

theorem readExact_one (a : Byte) (t : List Byte) :
    readExact 1 (a :: t) = some ([a], t) := by
  simp [readExact]

theorem readExact_two (a b : Byte) (t : List Byte) :
    readExact 2 (a :: b :: t) = some ([a, b], t) := by
  simp [readExact]

theorem readExact_append (n : Nat) (a b : List Byte) (h : a.length = n) :
    readExact n (a ++ b) = some (a, b) := by
  subst h
  simp [readExact, List.take_left, List.drop_left]

theorem readUpTo_three (v c r : Byte) (rest : List Byte) :
    readUpTo 3 3 (v :: c :: r :: rest) = ([v, c, r], rest) := by
  have h : min 3 (min 3 (v :: c :: r :: rest).length) = 3 := by
    simp only [List.length_cons]
    omega
  simp [readUpTo, h]

/-- C1: the round-trip `decode(encode(a)) = a` breaks on IPv6 targets.
Encoding the IPv6 target `[::1]:80` tags its 16-byte payload with the IPv4
type byte `0x01` (because `TargetAddr::addr_type` maps `V6` to
`AddrType::V4`), so the decoder parses a 4-byte IPv4 address `0.0.0.0`
with port 0 and leaves 12 bytes of the encoding unconsumed — the decoded
destination is not the encoded IPv6 target. -/
theorem c1_v6_roundtrip_breaks :
    encodeTarget v6Example =
      some (1 :: (List.replicate 15 0 ++ [1]) ++ [0, 80]) ∧
    get_socket_addrs ((encodeTarget v6Example).getD []) =
      .ok (.addrs [.v4 [0, 0, 0, 0] 0], List.replicate 9 0 ++ [1, 0, 80]) ∧
    ResolvedDest.addrs [.v4 [0, 0, 0, 0] 0] ≠
      ResolvedDest.addrs [.v6 (v6Groups (List.replicate 15 0 ++ [1])) 80] := by
  refine ⟨rfl, rfl, by decide⟩

/-- C2 counterexample: with no-auth disallowed and only `NoAuth` offered,
no configured method is offered, yet the greeting response is
`[0x05, 0x01]` (`Response::Failure`), not `[0x05, 0xFF]`. -/
theorem c2_counterexample :
    authRun false [AuthMethod.NoAuth] (fun _ _ => false) [] =
      ([5, 1], .ok, []) ∧
    ([5, 1] : List Byte) ≠ [5, 255] := by
  exact ⟨rfl, by decide⟩

/-- C2 amended: the greeting response always begins `[0x05, m]`, where
`m = 0x02` whenever `UserPass` is offered (the configuration is never
consulted for this), else `m = 0x00` when no-auth is allowed and `NoAuth`
is offered, and otherwise `m = 0x01` (`Response::Failure`) — never
`0xFF`. -/
theorem c2_amended (no_auth : Bool) (methods : List AuthMethod)
    (validator : List Byte → List Byte → Bool) (s : List Byte) :
    (authRun no_auth methods validator s).1.take 2 =
      [5, if methods.contains AuthMethod.UserPass then 2
          else if no_auth && methods.contains AuthMethod.NoAuth then 0
          else 1] := by
  unfold authRun
  by_cases h1 : methods.contains AuthMethod.UserPass
  · simp only [h1, if_true]
    rcases readExact 2 s with _ | ⟨hdr, s1⟩
    · rfl
    · simp only
      rcases readExact (hdr.getD 1 0) s1 with _ | ⟨uname, s2⟩
      · rfl
      · simp only
        by_cases hu : utf8Valid uname = false
        · simp [hu]
        · simp only [hu, if_false]
          rcases readExact 1 s2 with _ | ⟨pl, s3⟩
          · rfl
          · simp only
            rcases readExact (pl.getD 0 0) s3 with _ | ⟨pass, s4⟩
            · rfl
            · simp only
              by_cases hp : utf8Valid pass = false
              · simp [hp]
              · by_cases hv : validator uname pass <;> simp [hp, hv]
  · simp only [if_neg h1]
    by_cases h2 : no_auth && methods.contains AuthMethod.NoAuth
    · simp only [if_pos h2]; rfl
    · simp only [if_neg h2]; rfl

/-- C3: after a failed username/password validation the server writes
`[0x05, 0x01]`, but `shutdown` only logs, `auth` returns `Ok`, and the
session goes on to read and dispatch the command request — here a CONNECT
is dispatched after the failed login, exactly as it is after a successful
one, instead of the session terminating with no further bytes read or
sent. -/
theorem c3_auth_failure_session_continues :
    serveRun false (fun _ _ => false) 3
        ([5, 1, 2] ++ [1, 1, 97] ++ [1, 98] ++ [5, 1, 0, 1, 127, 0, 0, 1, 0, 80]) =
      ([5, 2, 5, 1], .connectCmd (.addrs [.v4 [127, 0, 0, 1] 80])) ∧
    serveRun false (fun _ _ => true) 3
        ([5, 1, 2] ++ [1, 1, 97] ++ [1, 98] ++ [5, 1, 0, 1, 127, 0, 0, 1, 0, 80]) =
      ([5, 2, 1, 0], .connectCmd (.addrs [.v4 [127, 0, 0, 1] 80])) := by
  exact ⟨rfl, rfl⟩

/-- C4 counterexample: on a Bind request (command byte `0x02`) the engine
writes no bytes at all — `handle_req` logs and returns
`Err(Response::CommandNotSupported)` — rather than the well-formed 10-byte
`CommandNotSupported` reply the claim requires. -/
theorem c4_counterexample :
    handleReq 3 [5, 2, 0, 1, 9, 9, 9, 9, 0, 80] =
      ([], .errResponse .CommandNotSupported) ∧
    ([] : List Byte).length ≠ 10 := by
  exact ⟨rfl, by decide⟩

/-- C4 amended: for every command byte other than `0x01` (Connect), the
engine sends no bytes after reading the request and fails the session with
`Err(Response::CommandNotSupported)`; no reply is written before the
socket closes. -/
theorem c4_amended (v cmd rsv : Byte) (rest : List Byte)
    (dest : ResolvedDest) (s2 : List Byte) (hcmd : cmd ≠ 1)
    (hdec : get_socket_addrs rest = .ok (dest, s2)) :
    handleReq 3 (v :: cmd :: rsv :: rest) =
      ([], .errResponse .CommandNotSupported) := by
  unfold handleReq
  rw [readUpTo_three]
  simp only [hdec, List.getD_cons_succ, List.getD_cons_zero]
  unfold Command.fromByte
  split_ifs with h1 h2 h3 <;> simp_all

/-- Witness for C4 amended: a Bind request with an IPv4 address. -/
theorem c4_amended_witness :
    (2 : Byte) ≠ 1 ∧
    get_socket_addrs [1, 9, 9, 9, 9, 0, 80] =
      .ok (.addrs [.v4 [9, 9, 9, 9] 80], []) ∧
    handleReq 3 (5 :: 2 :: 0 :: [1, 9, 9, 9, 9, 0, 80]) =
      ([], .errResponse .CommandNotSupported) :=
  ⟨by decide, rfl,
    c4_amended 5 2 0 [1, 9, 9, 9, 9, 0, 80]
      (.addrs [.v4 [9, 9, 9, 9] 80]) [] (by decide) rfl⟩

/-- C5: the 3-byte command-request header is read with a non-exact `read`;
when the transport delivers only 1 of the 3 bytes, the partial read is
treated as success — the unfilled buffer bytes stay 0, the command byte is
misread as 0, and the session proceeds to parse the remaining stream as an
address and answer `CommandNotSupported` instead of failing with an I/O
error. The same request with all 3 bytes delivered dispatches a CONNECT. -/
theorem c5_partial_read_proceeds :
    handleReq 1 [5, 1, 0, 1, 127, 0, 0, 1, 0, 80] =
      ([], .errResponse .CommandNotSupported) ∧
    handleReq 3 [5, 1, 0, 1, 127, 0, 0, 1, 0, 80] =
      ([], .connectCmd (.addrs [.v4 [127, 0, 0, 1] 80])) := by
  exact ⟨rfl, rfl⟩

/-- C6 counterexample: the upstream CONNECT reply carries code `0x05`
(`ConnectionRefused`), yet `connect_with_stream` returns `Ok` and the
stream would be handed to the relay — the reply code is never checked. -/
theorem c6_counterexample :
    connect_with_stream none (TargetAddr.V4 [1, 2, 3, 4] 80) 3
        ([5, 0] ++ [5, 5, 0, 1, 0, 0, 0, 0, 0, 0]) =
      .ok ([5, 1, 0] ++ (5 :: 1 :: 0 :: [1, 1, 2, 3, 4, 0, 80]), []) := rfl

/-- C6 amended: during the handshake a wrong version byte, an unexpected
selected method, and a failed username/password status byte each return an
error and the relay is not reached; but the 3-byte CONNECT reply header is
read and discarded without inspection, so any reply code — success or
failure — lets `cmd_connect` return `Ok`. -/
theorem c6_amended :
    (∀ (up : Option (List Byte × List Byte)) (r0 r1 : Byte) (rest : List Byte),
        r0 ≠ 5 →
        socks_handshake up (r0 :: r1 :: rest) = .error .invalidVersion) ∧
    (∀ (up : Option (List Byte × List Byte)) (r1 : Byte) (rest : List Byte),
        r1 ≠ 0 → r1 ≠ 2 →
        socks_handshake up (5 :: r1 :: rest) = .error .invalidMethod) ∧
    (∀ (u p : List Byte) (st0 st1 : Byte) (rest : List Byte), st1 ≠ 0 →
        socks_handshake (some (u, p)) (5 :: 2 :: st0 :: st1 :: rest) =
          .error .wrongCreds) ∧
    (∀ (v rep rsv : Byte) (rest : List Byte) (target : TargetAddr)
        (enc : List Byte) (dest : ResolvedDest) (s2 : List Byte),
        encodeTarget target = some enc →
        get_socket_addrs rest = .ok (dest, s2) →
        cmd_connect_client 3 target (v :: rep :: rsv :: rest) =
          .ok (5 :: 1 :: 0 :: enc, s2)) := by
  refine ⟨?_, ?_, ?_, ?_⟩
  · intro up r0 r1 rest h
    simp [socks_handshake, readExact_two, h]
  · intro up r1 rest h0 h2
    simp [socks_handshake, readExact_two, h0, h2]
  · intro u p st0 st1 rest h
    simp [socks_handshake, readExact_two, h]
  · intro v rep rsv rest target enc dest s2 henc hdec
    unfold cmd_connect_client
    rw [henc]
    simp only [readUpTo_three, hdec]

/-- Witness for C6 amended: concrete mismatching handshake replies err,
and a `ConnectionRefused` CONNECT reply still yields `Ok`. -/
theorem c6_amended_witness :
    (6 : Byte) ≠ 5 ∧
    socks_handshake none (6 :: 0 :: []) = .error .invalidVersion ∧
    (1 : Byte) ≠ 0 ∧ (1 : Byte) ≠ 2 ∧
    socks_handshake none (5 :: 1 :: []) = .error .invalidMethod ∧
    (1 : Byte) ≠ 0 ∧
    socks_handshake (some ([97], [98])) (5 :: 2 :: 1 :: 1 :: []) =
      .error .wrongCreds ∧
    encodeTarget (TargetAddr.V4 [1, 2, 3, 4] 80) = some [1, 1, 2, 3, 4, 0, 80] ∧
    get_socket_addrs [1, 0, 0, 0, 0, 0, 0] =
      .ok (.addrs [.v4 [0, 0, 0, 0] 0], []) ∧
    cmd_connect_client 3 (TargetAddr.V4 [1, 2, 3, 4] 80)
        (5 :: 5 :: 0 :: [1, 0, 0, 0, 0, 0, 0]) =
      .ok (5 :: 1 :: 0 :: [1, 1, 2, 3, 4, 0, 80], []) :=
  ⟨by decide,
    c6_amended.1 none 6 0 [] (by decide),
    by decide, by decide,
    c6_amended.2.1 none 1 [] (by decide) (by decide),
    by decide,
    c6_amended.2.2.1 [97] [98] 1 1 [] (by decide),
    rfl, rfl,
    c6_amended.2.2.2 5 5 0 [1, 0, 0, 0, 0, 0, 0] (TargetAddr.V4 [1, 2, 3, 4] 80)
      [1, 1, 2, 3, 4, 0, 80] (.addrs [.v4 [0, 0, 0, 0] 0]) [] rfl rfl⟩

/-- C7: decoding a Domain address consumes, after the address-type byte,
exactly one length byte, exactly `length` name bytes, and exactly two port
bytes — the unconsumed stream is precisely what followed them. -/
theorem c7_domain_consumes_exact (dlen : Nat) (name : List Byte)
    (ph pl : Byte) (rest : List Byte) (hlen : name.length = dlen) :
    get_socket_addrs (3 :: dlen :: (name ++ ph :: pl :: rest)) =
      .ok (.domainQuery name ((ph <<< 8) ||| pl), rest) := by
  have h1 : readExact dlen (name ++ ph :: pl :: rest) =
      some (name, ph :: pl :: rest) := readExact_append dlen name _ hlen
  simp [get_socket_addrs, AddrType.fromByte, readExact_one, h1, readExact_two]

/-- Witness for C7: the domain `"abc"`, port 80, with two surplus stream
bytes left unconsumed. -/
theorem c7_domain_consumes_exact_witness :
    ([97, 98, 99] : List Byte).length = 3 ∧
    get_socket_addrs (3 :: 3 :: ([97, 98, 99] ++ 0 :: 80 :: [7, 7])) =
      .ok (.domainQuery [97, 98, 99] ((0 <<< 8) ||| 80), [7, 7]) :=
  ⟨by decide, c7_domain_consumes_exact 3 [97, 98, 99] 0 80 [7, 7] (by decide)⟩

/-- C8 counterexample: a command request whose version byte is `0x06`
is not rejected — the CONNECT inside it is dispatched exactly as if the
version byte were `0x05`, so no fatal decode error precedes dispatch. -/
theorem c8_counterexample :
    handleReq 3 [6, 1, 0, 1, 127, 0, 0, 1, 0, 80] =
      ([], .connectCmd (.addrs [.v4 [127, 0, 0, 1] 80])) ∧
    SessionResult.connectCmd (.addrs [.v4 [127, 0, 0, 1] 80]) ≠
      .errResponse .Failure := by
  exact ⟨rfl, by decide⟩

/-- C8 amended: `handle_req` never looks at the first byte of the 3-byte
request header — replacing the version byte by anything at all leaves the
whole outcome unchanged. -/
theorem c8_version_byte_ignored (v w cmd rsv : Byte) (rest : List Byte) :
    handleReq 3 (v :: cmd :: rsv :: rest) =
      handleReq 3 (w :: cmd :: rsv :: rest) := by
  unfold handleReq
  rw [readUpTo_three, readUpTo_three]
  simp only [List.getD_cons_succ, List.getD_cons_zero]

/-- C9: encoding a Domain target whose name exceeds 255 bytes neither
fails nor panics — the buffer sizes line up, every name byte and the port
are written — but the `as u8` cast truncates the length prefix to
`length % 256`, which no longer equals the number of name bytes that
follow. -/
theorem c9_long_domain_truncated_length (name : List Byte) (port : Nat)
    (h : 255 < name.length) :
    TargetAddr.write_to (.Domain name port)
        (List.replicate (TargetAddr.len (.Domain name port) + 2) 0) =
      some ((name.length % 256) :: (name ++ portBytes port)) ∧
    name.length % 256 ≠ name.length := by
  constructor
  · have hrep : TargetAddr.len (.Domain name port) + 2 = (name.length + 2) + 1 := by
      simp only [TargetAddr.len]
    rw [hrep, List.replicate_succ]
    unfold TargetAddr.write_to copy_from_slice
    simp [portBytes]
  · have h2 := Nat.mod_lt name.length (show 0 < 256 by norm_num)
    omega

/-- Witness for C9: a 300-byte domain name. -/
theorem c9_long_domain_truncated_length_witness :
    255 < (List.replicate 300 97 : List Byte).length ∧
    (TargetAddr.write_to (.Domain (List.replicate 300 97) 80)
        (List.replicate (TargetAddr.len (.Domain (List.replicate 300 97) 80) + 2) 0) =
      some (((List.replicate 300 97 : List Byte).length % 256) ::
        (List.replicate 300 97 ++ portBytes 80)) ∧
    (List.replicate 300 97 : List Byte).length % 256 ≠
      (List.replicate 300 97 : List Byte).length) :=
  ⟨by simp only [List.length_replicate]; omega,
    c9_long_domain_truncated_length (List.replicate 300 97) 80
      (by simp only [List.length_replicate]; omega)⟩

/-- C10: credential bytes that are not valid UTF-8 make the session panic
(the `String::from_utf8(..).unwrap()` in `auth`): username byte `0xFF`
yields the `panicked` outcome right after the method reply. Conversely,
whenever both the username and the password fields parse as valid UTF-8,
the panic outcome is unreachable. -/
theorem c10_invalid_utf8_panics :
    (authRun true [AuthMethod.UserPass] (fun _ _ => true) [1, 1, 255, 1, 98] =
      ([5, 2], .panicked, [1, 98])) ∧
    (∀ (no_auth : Bool) (methods : List AuthMethod)
        (validator : List Byte → List Byte → Bool) (vh ulen plen : Byte)
        (uname pass rest : List Byte),
        uname.length = ulen → pass.length = plen →
        utf8Valid uname = true → utf8Valid pass = true →
        (authRun no_auth methods validator
            (vh :: ulen :: (uname ++ plen :: (pass ++ rest)))).2.1 ≠
          AuthOutcome.panicked) := by
  constructor
  · rfl
  · intro no_auth methods validator vh ulen plen uname pass rest hu hp hvu hvp
    unfold authRun
    by_cases h1 : methods.contains AuthMethod.UserPass
    · rw [if_pos h1]
      simp only [readExact_two, List.getD_cons_succ, List.getD_cons_zero,
        readExact_append _ _ _ hu, readExact_append _ _ _ hp, readExact_one,
        hvu, hvp]
      rw [if_neg (by decide : ¬(true = false)), if_neg (by decide : ¬(true = false))]
      by_cases hv : validator uname pass
      · rw [if_pos hv]
        simp
      · rw [if_neg hv]
        simp
    · rw [if_neg h1]
      by_cases h2 : no_auth && methods.contains AuthMethod.NoAuth
      · rw [if_pos h2]
        simp
      · rw [if_neg h2]
        simp

/-- Witness for C10: valid one-byte ASCII credentials never panic. -/
theorem c10_invalid_utf8_panics_witness :
    ([97] : List Byte).length = 1 ∧ ([98] : List Byte).length = 1 ∧
    utf8Valid [97] = true ∧ utf8Valid [98] = true ∧
    (authRun true [AuthMethod.UserPass] (fun _ _ => false)
        (1 :: 1 :: ([97] ++ 1 :: ([98] ++ [])))).2.1 ≠ AuthOutcome.panicked :=
  ⟨by decide, by decide, by decide, by decide,
    c10_invalid_utf8_panics.2 true [AuthMethod.UserPass] (fun _ _ => false)
      1 1 1 [97] [98] [] (by decide) (by decide) (by decide) (by decide)⟩

end ToggleProxy
